import Mathlib

/-!
Verification of the external systems dispatch layer, embedded from
src/external_systems_creator_with_decorator.py and
src/external_systems_creator_with_metaclass.py.

Pure Python control flow is translated to Lean functions.  A raised
Python exception is an explicit error value of type PyExc; a value of
type Except PyExc escaping a wrapper models an uncaught exception
propagating to the caller.  The HistoryRecorder and FailureNotifier
collaborators are absent from the source (they are marked only by
comments such as "Record in history event ok" and "send e-mail
notification"), so their call sites are modelled from the spec, at the
positions the source comments indicate: the result of a dispatch carries
the list of recorded outcomes and the number of failure notifications.
-/

/-- Python exception values that can flow through the dispatch code.
Every listed kind subclasses Exception in Python 2, so the catch-all
clause of the decorator variant catches each one of them. -/
inductive PyExc
  | keyError (key : String)
  | indexError
  | notImplementedError
  | nameError (missing : String)
  | exception (msg : String)
  deriving DecidableEq

/-- Python type(exc).__name__ for the modelled exception kinds. -/
def pyTypeName : PyExc → String
  | .keyError _ => "KeyError"
  | .indexError => "IndexError"
  | .notImplementedError => "NotImplementedError"
  | .nameError _ => "NameError"
  | .exception _ => "Exception"

/-- Python str(exc) for the modelled exception kinds, as interpolated by
the error prints of both variants. -/
def pyStr : PyExc → String
  | .keyError key => "\x27" ++ key ++ "\x27"
  | .indexError => "list index out of range"
  | .notImplementedError => ""
  | .nameError missing => "global name \x27" ++ missing ++ "\x27 is not defined"
  | .exception msg => msg

/-- Detail string built by the error branch of both wrappers:
the format "%s %s" applied to (type(exc).__name__, exc). -/
def excDetail (e : PyExc) : String := pyTypeName e ++ " " ++ pyStr e

/-- An incidence entity: a Python dict.  idField is the value stored
under the key _id when that key is present; otherFields holds every
other key of the dict, which the dispatch code never consults. -/
structure Incidence where
  idField : Option String
  otherFields : List (String × String)
  deriving DecidableEq

/-- The argument shape of one call to a wrapped action: the incidence
passed as the keyword argument named incidence (if so passed), and the
tuple of positional arguments, of which only the first is ever indexed
by the wrapper. -/
structure CallArgs where
  kwIncidence : Option Incidence
  posArgs : List Incidence
  deriving DecidableEq

/-- Python values returned by the decorator-variant wrapper
(True, False, or the implicit None). -/
inductive RetVal
  | pyTrue
  | pyFalse
  | pyNone
  deriving DecidableEq

deriving instance DecidableEq for Except

/-- Outcome classification of a dispatch attempt, read off the branch of
the wrapper that runs: Ok (the "notified Ok" branch), Skipped (the
"NOT IMPLEMENTED" branch), or Failed with the printed detail (the
"error on action" branch). -/
inductive Outcome
  | ok
  | skipped
  | failed (detail : String)
  deriving DecidableEq

/-- Observable result of one call into a wrapped action.
Fields in order: res (either an exception escaping the wrapper, or the
returned Python value together with the Outcome classification of the
branch that ran), handlerCalls (number of invocations of a
plugin-supplied handler), records (outcomes forwarded to the
HistoryRecorder, modelled from the spec at the comment positions of the
source), failureNotices (calls to the FailureNotifier, likewise
modelled from the spec), and guardHit (whether the dead
"Incidence id not passed as argument" guard branch ran). -/
structure DispatchResult where
  res : Except PyExc (RetVal × Outcome)
  handlerCalls : Nat
  records : List Outcome
  failureNotices : Nat
  guardHit : Bool
  deriving DecidableEq

/-- Outcome classification part of a dispatch result. -/
def outcomeOf (r : DispatchResult) : Except PyExc Outcome := r.res.map Prod.snd

/-- Incidence id extraction shared verbatim by both wrappers
(decorator variant lines 45-51, metaclass variant lines 28-34):
if the keyword incidence is present take its _id (KeyError when the key
is absent); otherwise, if args is not None, take args[0][_id]
(IndexError on an empty tuple, KeyError on a missing key); otherwise
print "Incidence id not passed as argument" and return.  The value
ok none encodes reaching that final guard branch; since a Python *args
tuple is never None, a real call always passes argsOpt = some tuple. -/
def extractIncidenceId (kwInc : Option Incidence) (argsOpt : Option (List Incidence)) :
    Except PyExc (Option String) :=
  match kwInc with
  | some inc =>
    match inc.idField with
    | some v => .ok (some v)
    | none => .error (.keyError "_id")
  | none =>
    match argsOpt with
    | some [] => .error .indexError
    | some (inc :: _) =>
      match inc.idField with
      | some v => .ok (some v)
      | none => .error (.keyError "_id")
    | none => .ok none

/-- Post-extraction body of the decorator-variant wrapper
(_common_process.inner, lines 60-83).  implAt is the behavior of the
plugin implementation method at the given arguments: none when
hasattr(self, plugin_method) is false, some r when the method exists and
its invocation yields r.  Branches: no method, print NOT IMPLEMENTED and
return False recording nothing; normal return, print notified Ok,
record Ok, return True; exception, print the error detail, record the
failure and send the failure notification, fall off the end
returning None. -/
def dec_body (implAt : Option (Except PyExc Unit)) : DispatchResult :=
  match implAt with
  | none => ⟨.ok (.pyFalse, .skipped), 0, [], 0, false⟩
  | some (.ok _) => ⟨.ok (.pyTrue, .ok), 1, [.ok], 0, false⟩
  | some (.error e) =>
    ⟨.ok (.pyNone, .failed (excDetail e)), 1, [.failed (excDetail e)], 1, false⟩

/-- Decorator-variant wrapper inner(self, *args, **kwargs)
(lines 42-84 of the decorator source): extract the incidence id (an
extraction exception escapes the wrapper uncaught), then run the body.
The guard branch returns False; its classification mirrors the
not-implemented return value and is provably unreachable for real calls. -/
def dec_common_process (implAt : Option (Except PyExc Unit)) (kwInc : Option Incidence)
    (argsOpt : Option (List Incidence)) : DispatchResult :=
  match extractIncidenceId kwInc argsOpt with
  | .error e => ⟨.error e, 0, [], 0, false⟩
  | .ok none => ⟨.ok (.pyFalse, .skipped), 0, [], 0, true⟩
  | .ok (some _) => dec_body implAt

/-- Post-extraction body of the metaclass-variant wrapper
(_common_process.inner, lines 44-66 of the metaclass source).  The
wrapper always invokes func; when the plugin does not override the
action, func is the base-class default which raises
NotImplementedError.  Branches: normal return, print notified Ok and
record Ok; NotImplementedError caught, print NOT IMPLEMENTED and record
nothing; any other exception caught, print the error detail, record the
failure and send the failure notification.  The wrapper has no return
statement, so every branch returns None. -/
def meta_body (implAt : Option (Except PyExc Unit)) : DispatchResult :=
  match implAt with
  | none => ⟨.ok (.pyNone, .skipped), 0, [], 0, false⟩
  | some (.ok _) => ⟨.ok (.pyNone, .ok), 1, [.ok], 0, false⟩
  | some (.error .notImplementedError) => ⟨.ok (.pyNone, .skipped), 1, [], 0, false⟩
  | some (.error e) =>
    ⟨.ok (.pyNone, .failed (excDetail e)), 1, [.failed (excDetail e)], 1, false⟩

/-- Metaclass-variant wrapper inner(self, *args, **kwargs)
(lines 25-67 of the metaclass source): the same id extraction as the
decorator variant (an extraction exception escapes uncaught, before the
try block), then the body; the guard branch returns None. -/
def meta_common_process (implAt : Option (Except PyExc Unit)) (kwInc : Option Incidence)
    (argsOpt : Option (List Incidence)) : DispatchResult :=
  match extractIncidenceId kwInc argsOpt with
  | .error e => ⟨.error e, 0, [], 0, false⟩
  | .ok none => ⟨.ok (.pyNone, .skipped), 0, [], 0, true⟩
  | .ok (some _) => meta_body implAt

/-- The fixed event enumeration of the spec (section 6).  The decorator
source defines wrapped actions for all kinds except activeAfterSolved;
the metaclass source defines base actions for all eight. -/
inductive EventKind
  | firstAssignment
  | active
  | delayed
  | restored
  | solved
  | activeAfterSolved
  | addedNote
  | addedAttachment
  deriving DecidableEq

/-- Per-event payload fields appearing in the action signatures
(external_tt_id, causeStatus, delayedReason, annotation argument of
added_note, uri and name of added_attachment).  The dispatcher treats
the payload as opaque; only plugin handlers read it. -/
structure Payload where
  externalTtId : String
  causeStatus : String
  delayedReason : String
  noteText : String
  uri : String
  fileName : String
  deriving DecidableEq

/-- Abstract plugin behavior: for each event kind, either no handler
implementation, or a pure handler whose invocation at a payload either
returns normally or raises an exception.  In the decorator variant this
is the presence and behavior of the _action_* method; in the metaclass
variant it is the presence and behavior of an overriding action_*
method (absence meaning the base default that raises the sentinel). -/
abbrev PluginBehavior := EventKind → Option (Payload → Except PyExc Unit)

/-- Behavior of the plugin for event k at payload pl: none when the
plugin supplies no handler, some r when its handler runs and yields r. -/
def behaviorAt (p : PluginBehavior) (k : EventKind) (pl : Payload) :
    Option (Except PyExc Unit) := (p k).map (fun h => h pl)

/-- Dispatch of one event through the decorator variant: the wrapped
action_* method called with the given arguments. -/
def dec_notify (p : PluginBehavior) (k : EventKind) (c : CallArgs) (pl : Payload) :
    DispatchResult :=
  dec_common_process (behaviorAt p k pl) c.kwIncidence (some c.posArgs)

/-- Dispatch of one event through the metaclass variant: the decorated
action_* method called with the given arguments. -/
def meta_notify (p : PluginBehavior) (k : EventKind) (c : CallArgs) (pl : Payload) :
    DispatchResult :=
  meta_common_process (behaviorAt p k pl) c.kwIncidence (some c.posArgs)

/-- Ticket id constant EXTERNAL_TT_ID of both example plugins. -/
def EXTERNAL_TT_ID : String := "EXTERNAL_ID_OK"

/-- Ticket id constant EXTERNAL_TT_ID_NOT_IMPLEMENT of both example plugins. -/
def EXTERNAL_TT_ID_NOT_IMPLEMENT : String := "EXTERNAL_ID_NOT_IMPLEMENT"

/-- Ticket id constant for the error path (EXTERNAL_TT_ID_FOR_ERROR in
the decorator source, EXTERNAL_TT_ID_NOK in the metaclass source). -/
def EXTERNAL_TT_ID_FOR_ERROR : String := "EXTERNAL_ID_NOK"

/-- ExampleExternalSystemPlugin of the decorator source: the _action_*
implementation methods (lines 138-167).  Each succeeds when
external_tt_id equals EXTERNAL_TT_ID and otherwise raises
Exception with the corresponding message.  No _action_* exists for
active, added_note or added_attachment, and the base class of this
variant defines no action for activeAfterSolved at all. -/
def decExample : PluginBehavior := fun k =>
  match k with
  | .firstAssignment => some (fun pl =>
      if pl.externalTtId = EXTERNAL_TT_ID then .ok ()
      else .error (.exception "Error invoking first assignment"))
  | .delayed => some (fun pl =>
      if pl.externalTtId = EXTERNAL_TT_ID then .ok ()
      else .error (.exception "Error invoking delayed"))
  | .restored => some (fun pl =>
      if pl.externalTtId = EXTERNAL_TT_ID then .ok ()
      else .error (.exception "Error invoking restored"))
  | .solved => some (fun pl =>
      if pl.externalTtId = EXTERNAL_TT_ID then .ok ()
      else .error (.exception "Error invoking solved"))
  | _ => none

/-- ExampleExternalSystemPlugin.action_delayed of the decorator source
(lines 144-149): a full override of the wrapped action.  For
EXTERNAL_TT_ID_NOT_IMPLEMENT it prints and returns True without ever
entering _common_process (no extraction, no record, no classification
print; the caller observes the return value True, the value the wrapper
uses for the Ok classification).  Otherwise it delegates to the wrapped
base action with positional arguments, which dispatches to
_action_delayed. -/
def dec_example_action_delayed (inc : Incidence) (pl : Payload) : DispatchResult :=
  if pl.externalTtId = EXTERNAL_TT_ID_NOT_IMPLEMENT then
    ⟨.ok (.pyTrue, .ok), 0, [], 0, false⟩
  else
    dec_notify decExample .delayed ⟨none, [inc]⟩ pl

/-- ExampleExternalSystemPlugin of the metaclass source: the overriding
action_* methods (lines 158-201).  action_delayed raises the
NotImplementedError sentinel for EXTERNAL_TT_ID_NOT_IMPLEMENT;
action_solved raises the undefined name ExternalError, which at run
time is a NameError; the other handlers succeed for EXTERNAL_TT_ID and
raise Exception otherwise.  active and active_after_solved are not
overridden, so the raising base default runs for them. -/
def metaExample : PluginBehavior := fun k =>
  match k with
  | .firstAssignment => some (fun pl =>
      if pl.externalTtId = EXTERNAL_TT_ID then .ok ()
      else .error (.exception "Error invoking first assignment"))
  | .delayed => some (fun pl =>
      if pl.externalTtId = EXTERNAL_TT_ID_NOT_IMPLEMENT then .error .notImplementedError
      else if pl.externalTtId = EXTERNAL_TT_ID then .ok ()
      else .error (.exception "Error invoking delayed"))
  | .restored => some (fun pl =>
      if pl.externalTtId = EXTERNAL_TT_ID then .ok ()
      else .error (.exception "Error invoking restored"))
  | .solved => some (fun pl =>
      if pl.externalTtId = EXTERNAL_TT_ID then .ok ()
      else .error (.nameError "ExternalError"))
  | .addedNote => some (fun pl =>
      if pl.externalTtId = EXTERNAL_TT_ID then .ok ()
      else .error (.exception "Error invoking added note"))
  | .addedAttachment => some (fun pl =>
      if pl.externalTtId = EXTERNAL_TT_ID then .ok ()
      else .error (.exception "Error invoking added attachment"))
  | _ => none

/-- The incidence dict of the test section of both sources. -/
def incidenceData : Incidence := ⟨some "5141cefd97fbe51310000001", []⟩

/-- Call arguments of the test section: the incidence is passed as the
keyword argument named incidence, the positional tuple is empty. -/
def kwArgs (inc : Incidence) : CallArgs := ⟨some inc, []⟩

/-- Payload with the given external ticket id and the causeStatus and
delayedReason strings of the test section; remaining fields empty. -/
def plWith (ett : String) : Payload := ⟨ett, "This is a test", "REJECTION", "", "", ""⟩

/-- Plugin supplying no handler for any event. -/
def emptyPlugin : PluginBehavior := fun _ => none

/-- Plugin whose every handler raises the distinguished
NotImplementedError signal from inside the handler body. -/
def sentinelPlugin : PluginBehavior := fun _ => some (fun _ => .error .notImplementedError)

/-- Helper: once the shared id extraction yields an id, the decorator
wrapper reduces to its post-extraction body. -/
theorem dec_cp_of_extract (implAt : Option (Except PyExc Unit)) (kwInc : Option Incidence)
    (argsOpt : Option (List Incidence)) (s : String)
    (hs : extractIncidenceId kwInc argsOpt = Except.ok (some s)) :
    dec_common_process implAt kwInc argsOpt = dec_body implAt := by
  unfold dec_common_process
  rw [hs]

/-- Helper: once the shared id extraction yields an id, the metaclass
wrapper reduces to its post-extraction body. -/
theorem meta_cp_of_extract (implAt : Option (Except PyExc Unit)) (kwInc : Option Incidence)
    (argsOpt : Option (List Incidence)) (s : String)
    (hs : extractIncidenceId kwInc argsOpt = Except.ok (some s)) :
    meta_common_process implAt kwInc argsOpt = meta_body implAt := by
  unfold meta_common_process
  rw [hs]

/-- Helper: whenever the positional tuple exists (as it does on every
real Python call), the extraction never reaches the guard value. -/
theorem extract_ne_guard (kwInc : Option Incidence) (args : List Incidence) :
    extractIncidenceId kwInc (some args) ≠ Except.ok none := by
  rcases kwInc with _ | ⟨idf, of⟩
  · rcases args with _ | ⟨⟨idf2, of2⟩, t⟩
    · simp [extractIncidenceId]
    · rcases idf2 with _ | v <;> simp [extractIncidenceId]
  · rcases idf with _ | v <;> simp [extractIncidenceId]

/-- Helper: the decorator body never sets the guard flag. -/
theorem dec_body_guardHit (implAt : Option (Except PyExc Unit)) :
    (dec_body implAt).guardHit = false := by
  rcases implAt with _ | (u | e) <;> rfl

/-- Helper: the metaclass body never sets the guard flag. -/
theorem meta_body_guardHit (implAt : Option (Except PyExc Unit)) :
    (meta_body implAt).guardHit = false := by
  rcases implAt with _ | (e | u)
  · rfl
  · cases e <;> rfl
  · rfl

/-- C1 (corrected): counterexample.  For a plugin whose handler raises
the distinguished NotImplementedError signal from inside the handler
body, at the delayed event with the test incidence, the existence-check
variant classifies the dispatch Failed while the sentinel variant
classifies it Skipped: the two strategies do not produce the same
Outcome for every plugin. -/
theorem C1_counterexample :
    outcomeOf (dec_notify sentinelPlugin .delayed (kwArgs incidenceData)
        (plWith EXTERNAL_TT_ID)) = Except.ok (Outcome.failed "NotImplementedError ") ∧
    outcomeOf (meta_notify sentinelPlugin .delayed (kwArgs incidenceData)
        (plWith EXTERNAL_TT_ID)) = Except.ok Outcome.skipped ∧
    outcomeOf (dec_notify sentinelPlugin .delayed (kwArgs incidenceData)
        (plWith EXTERNAL_TT_ID)) ≠
      outcomeOf (meta_notify sentinelPlugin .delayed (kwArgs incidenceData)
        (plWith EXTERNAL_TT_ID)) := by
  refine ⟨by decide, by decide, by decide⟩

/-- C1 (amended, proved): for every plugin, event kind, call arguments
and payload, provided the plugin handler does not raise the
distinguished NotImplementedError signal at this input, the decorator
(existence-check) variant and the metaclass (sentinel-signal) variant
produce the same externally observable Outcome classification. -/
theorem C1_strategy_equivalence (p : PluginBehavior) (k : EventKind) (c : CallArgs)
    (pl : Payload)
    (h : behaviorAt p k pl ≠ some (Except.error PyExc.notImplementedError)) :
    outcomeOf (dec_notify p k c pl) = outcomeOf (meta_notify p k c pl) := by
  unfold dec_notify meta_notify dec_common_process meta_common_process
  rcases hE : extractIncidenceId c.kwIncidence (some c.posArgs) with e | (_ | s)
  · rfl
  · rfl
  · rcases hB : behaviorAt p k pl with _ | (e | u)
    · rfl
    · cases e with
      | notImplementedError => exact absurd hB h
      | keyError a => rfl
      | indexError => rfl
      | nameError a => rfl
      | exception a => rfl
    · rfl

/-- C1 witness: the amended equivalence instantiated at the empty plugin,
the delayed event and the test call. -/
theorem C1_strategy_equivalence_witness :
    behaviorAt emptyPlugin .delayed (plWith EXTERNAL_TT_ID) ≠
      some (Except.error PyExc.notImplementedError) ∧
    outcomeOf (dec_notify emptyPlugin .delayed (kwArgs incidenceData)
        (plWith EXTERNAL_TT_ID)) =
      outcomeOf (meta_notify emptyPlugin .delayed (kwArgs incidenceData)
        (plWith EXTERNAL_TT_ID)) :=
  ⟨by decide, C1_strategy_equivalence emptyPlugin .delayed (kwArgs incidenceData)
      (plWith EXTERNAL_TT_ID) (by decide)⟩

/-- C2 (corrected): counterexample.  A call that passes no incidence at
all (empty positional tuple, no incidence keyword) makes the id
extraction raise IndexError, which escapes both dispatchers uncaught:
the dispatcher does not contain every fault and such a call yields no
Outcome. -/
theorem C2_counterexample :
    (dec_notify decExample .firstAssignment ⟨none, []⟩ (plWith EXTERNAL_TT_ID)).res =
      Except.error PyExc.indexError ∧
    (meta_notify metaExample .firstAssignment ⟨none, []⟩ (plWith EXTERNAL_TT_ID)).res =
      Except.error PyExc.indexError := ⟨rfl, rfl⟩

/-- C2 (amended, proved): for every plugin behavior, event kind and
payload, and every call whose id extraction succeeds (an incidence
carrying an _id key is supplied as keyword or first positional
argument), no exception escapes either dispatcher and the call returns
exactly one value carrying exactly one Outcome classification. -/
theorem C2_outcome_total (p : PluginBehavior) (k : EventKind) (c : CallArgs) (pl : Payload)
    (h : ∃ s, extractIncidenceId c.kwIncidence (some c.posArgs) = Except.ok (some s)) :
    (∃ ro, (dec_notify p k c pl).res = Except.ok ro) ∧
    (∃ ro, (meta_notify p k c pl).res = Except.ok ro) := by
  obtain ⟨s, hs⟩ := h
  unfold dec_notify meta_notify
  rw [dec_cp_of_extract _ _ _ s hs, meta_cp_of_extract _ _ _ s hs]
  constructor
  · rcases hB : behaviorAt p k pl with _ | (e | u)
    · exact ⟨(.pyFalse, .skipped), rfl⟩
    · exact ⟨(.pyNone, .failed (excDetail e)), rfl⟩
    · exact ⟨(.pyTrue, .ok), rfl⟩
  · rcases hB : behaviorAt p k pl with _ | (e | u)
    · exact ⟨(.pyNone, .skipped), rfl⟩
    · cases e with
      | notImplementedError => exact ⟨(.pyNone, .skipped), rfl⟩
      | keyError a => exact ⟨(.pyNone, .failed (excDetail (.keyError a))), rfl⟩
      | indexError => exact ⟨(.pyNone, .failed (excDetail .indexError)), rfl⟩
      | nameError a => exact ⟨(.pyNone, .failed (excDetail (.nameError a))), rfl⟩
      | exception a => exact ⟨(.pyNone, .failed (excDetail (.exception a))), rfl⟩
    · exact ⟨(.pyNone, .ok), rfl⟩

/-- C2 witness: the amended totality instantiated at the decorator
example plugin, FirstAssignment and the test call. -/
theorem C2_outcome_total_witness :
    (∃ s, extractIncidenceId (kwArgs incidenceData).kwIncidence
        (some (kwArgs incidenceData).posArgs) = Except.ok (some s)) ∧
    ((∃ ro, (dec_notify decExample .firstAssignment (kwArgs incidenceData)
        (plWith EXTERNAL_TT_ID)).res = Except.ok ro) ∧
     (∃ ro, (meta_notify decExample .firstAssignment (kwArgs incidenceData)
        (plWith EXTERNAL_TT_ID)).res = Except.ok ro)) :=
  ⟨⟨"5141cefd97fbe51310000001", rfl⟩,
   C2_outcome_total decExample .firstAssignment (kwArgs incidenceData)
     (plWith EXTERNAL_TT_ID) ⟨"5141cefd97fbe51310000001", rfl⟩⟩

/-- C3 (code_bug): evaluation at the failing input.  Dispatching
FirstAssignment with an incidence dict that lacks the _id key makes both
variants raise an uncaught KeyError out of the wrapper: no
Failed(InvalidInput, missing correlation id) Outcome is ever returned,
while the plugin handler and the recorder are indeed not invoked. -/
theorem C3_missing_id_uncaught :
    dec_notify decExample .firstAssignment ⟨some ⟨none, []⟩, []⟩ (plWith EXTERNAL_TT_ID) =
      ⟨Except.error (PyExc.keyError "_id"), 0, [], 0, false⟩ ∧
    meta_notify metaExample .firstAssignment ⟨some ⟨none, []⟩, []⟩ (plWith EXTERNAL_TT_ID) =
      ⟨Except.error (PyExc.keyError "_id"), 0, [], 0, false⟩ := ⟨rfl, rfl⟩

/-- Helper: the printed type name of an exception is never empty. -/
theorem pyTypeName_length_pos (e : PyExc) : 0 < (pyTypeName e).length := by
  cases e with
  | keyError k => exact (by decide : 0 < ("KeyError" : String).length)
  | indexError => decide
  | notImplementedError => decide
  | nameError m => exact (by decide : 0 < ("NameError" : String).length)
  | exception m => exact (by decide : 0 < ("Exception" : String).length)

/-- Helper: the error detail printed and recorded by the failure branch
is never the empty string. -/
theorem excDetail_ne_empty (e : PyExc) : excDetail e ≠ "" := by
  intro h
  have h1 : (excDetail e).length = 0 := by rw [h]; decide
  have h2 : (excDetail e).length = (pyTypeName e).length + " ".length + (pyStr e).length := by
    simp [excDetail]
  have h3 := pyTypeName_length_pos e
  omega

/-- C4 (confirmed): for every plugin that supplies no handler for an
event kind, and every call carrying a valid incidence, with any payload,
both variants classify the dispatch Skipped and record nothing in
history. -/
theorem C4_no_handler_skipped (p : PluginBehavior) (k : EventKind) (c : CallArgs)
    (pl : Payload) (hp : p k = none)
    (h : ∃ s, extractIncidenceId c.kwIncidence (some c.posArgs) = Except.ok (some s)) :
    outcomeOf (dec_notify p k c pl) = Except.ok Outcome.skipped ∧
    (dec_notify p k c pl).records = [] ∧
    outcomeOf (meta_notify p k c pl) = Except.ok Outcome.skipped ∧
    (meta_notify p k c pl).records = [] := by
  obtain ⟨s, hs⟩ := h
  have hb : behaviorAt p k pl = none := by simp [behaviorAt, hp]
  unfold dec_notify meta_notify
  rw [dec_cp_of_extract _ _ _ s hs, meta_cp_of_extract _ _ _ s hs, hb]
  exact ⟨rfl, rfl, rfl, rfl⟩

/-- C4 witness: instantiated at the decorator example plugin, which
implements no handler for Active, with the test incidence. -/
theorem C4_no_handler_skipped_witness :
    decExample .active = none ∧
    (∃ s, extractIncidenceId (kwArgs incidenceData).kwIncidence
        (some (kwArgs incidenceData).posArgs) = Except.ok (some s)) ∧
    (outcomeOf (dec_notify decExample .active (kwArgs incidenceData)
        (plWith EXTERNAL_TT_ID)) = Except.ok Outcome.skipped ∧
     (dec_notify decExample .active (kwArgs incidenceData)
        (plWith EXTERNAL_TT_ID)).records = [] ∧
     outcomeOf (meta_notify decExample .active (kwArgs incidenceData)
        (plWith EXTERNAL_TT_ID)) = Except.ok Outcome.skipped ∧
     (meta_notify decExample .active (kwArgs incidenceData)
        (plWith EXTERNAL_TT_ID)).records = []) :=
  ⟨rfl, ⟨"5141cefd97fbe51310000001", rfl⟩,
   C4_no_handler_skipped decExample .active (kwArgs incidenceData) (plWith EXTERNAL_TT_ID)
     rfl ⟨"5141cefd97fbe51310000001", rfl⟩⟩

/-- C5 (confirmed): whenever the plugin handler for an event raises a
fault other than the distinguished NotImplementedError signal, on a
call with a valid incidence both variants classify the dispatch Failed
with the non-empty printed detail, record exactly that Failed outcome
exactly once, and send exactly one failure notification. -/
theorem C5_fault_failed (p : PluginBehavior) (k : EventKind) (c : CallArgs) (pl : Payload)
    (e : PyExc) (hb : behaviorAt p k pl = some (Except.error e))
    (hne : e ≠ PyExc.notImplementedError)
    (h : ∃ s, extractIncidenceId c.kwIncidence (some c.posArgs) = Except.ok (some s)) :
    outcomeOf (dec_notify p k c pl) = Except.ok (Outcome.failed (excDetail e)) ∧
    outcomeOf (meta_notify p k c pl) = Except.ok (Outcome.failed (excDetail e)) ∧
    excDetail e ≠ "" ∧
    (dec_notify p k c pl).records = [Outcome.failed (excDetail e)] ∧
    (meta_notify p k c pl).records = [Outcome.failed (excDetail e)] ∧
    (dec_notify p k c pl).failureNotices = 1 ∧
    (meta_notify p k c pl).failureNotices = 1 := by
  obtain ⟨s, hs⟩ := h
  have hm : meta_body (some (Except.error e)) =
      ⟨Except.ok (RetVal.pyNone, Outcome.failed (excDetail e)), 1,
        [Outcome.failed (excDetail e)], 1, false⟩ := by
    cases e with
    | notImplementedError => exact absurd rfl hne
    | keyError a => rfl
    | indexError => rfl
    | nameError a => rfl
    | exception a => rfl
  unfold dec_notify meta_notify
  rw [dec_cp_of_extract _ _ _ s hs, meta_cp_of_extract _ _ _ s hs, hb, hm]
  exact ⟨rfl, rfl, excDetail_ne_empty e, rfl, rfl, rfl, rfl⟩

/-- C5 witness: instantiated at the decorator example plugin,
FirstAssignment with the error ticket id of the test section, whose
handler raises Exception with the first-assignment message. -/
theorem C5_fault_failed_witness :
    behaviorAt decExample .firstAssignment (plWith EXTERNAL_TT_ID_FOR_ERROR) =
      some (Except.error (PyExc.exception "Error invoking first assignment")) ∧
    PyExc.exception "Error invoking first assignment" ≠ PyExc.notImplementedError ∧
    (∃ s, extractIncidenceId (kwArgs incidenceData).kwIncidence
        (some (kwArgs incidenceData).posArgs) = Except.ok (some s)) ∧
    outcomeOf (dec_notify decExample .firstAssignment (kwArgs incidenceData)
        (plWith EXTERNAL_TT_ID_FOR_ERROR)) =
      Except.ok (Outcome.failed
        (excDetail (PyExc.exception "Error invoking first assignment"))) :=
  ⟨by decide, by decide, ⟨"5141cefd97fbe51310000001", rfl⟩,
   (C5_fault_failed decExample .firstAssignment (kwArgs incidenceData)
      (plWith EXTERNAL_TT_ID_FOR_ERROR)
      (PyExc.exception "Error invoking first assignment") (by decide) (by decide)
      ⟨"5141cefd97fbe51310000001", rfl⟩).1⟩

/-- C6 (corrected): counterexample.  At the delayed event with
EXTERNAL_TT_ID_NOT_IMPLEMENT and the test incidence, the metaclass
example plugin signals not-applicable from inside its handler: the
dispatch is classified Skipped but the recorder is NOT called, so this
Skipped sub-case is not distinguished from the no-implementation one by
a Record call, contrary to the claim. -/
theorem C6_counterexample :
    outcomeOf (meta_notify metaExample .delayed (kwArgs incidenceData)
        (plWith EXTERNAL_TT_ID_NOT_IMPLEMENT)) = Except.ok Outcome.skipped ∧
    (meta_notify metaExample .delayed (kwArgs incidenceData)
        (plWith EXTERNAL_TT_ID_NOT_IMPLEMENT)).records = [] :=
  ⟨by decide, by decide⟩

/-- C6 (amended, proved): for the data-dependent intentional no-op of
the example plugins, the metaclass variant classifies the dispatch
Skipped with one handler invocation and no Record call (the handler
having run is the only difference from the no-implementation case; the
recorder sees neither), while the decorator variant realizes the same
no-op by overriding the wrapped action entirely: that call returns
True with no common processing, no handler invocation and no Record
call. -/
theorem C6_explicit_skip_behavior :
    meta_notify metaExample .delayed (kwArgs incidenceData)
        (plWith EXTERNAL_TT_ID_NOT_IMPLEMENT) =
      ⟨Except.ok (RetVal.pyNone, Outcome.skipped), 1, [], 0, false⟩ ∧
    dec_example_action_delayed incidenceData (plWith EXTERNAL_TT_ID_NOT_IMPLEMENT) =
      ⟨Except.ok (RetVal.pyTrue, Outcome.ok), 0, [], 0, false⟩ :=
  ⟨by decide, by decide⟩

/-- C7 (confirmed): literal scenario of the test section.  With the
incidence of id 5141cefd97fbe51310000001, dispatching FirstAssignment
with external ticket id EXTERNAL_ID_OK yields Ok in both variants, and
with EXTERNAL_ID_NOK yields Failed in both variants. -/
theorem C7_first_assignment_scenario :
    outcomeOf (dec_notify decExample .firstAssignment (kwArgs incidenceData)
        (plWith "EXTERNAL_ID_OK")) = Except.ok Outcome.ok ∧
    outcomeOf (meta_notify metaExample .firstAssignment (kwArgs incidenceData)
        (plWith "EXTERNAL_ID_OK")) = Except.ok Outcome.ok ∧
    outcomeOf (dec_notify decExample .firstAssignment (kwArgs incidenceData)
        (plWith "EXTERNAL_ID_NOK")) =
      Except.ok (Outcome.failed "Exception Error invoking first assignment") ∧
    outcomeOf (meta_notify metaExample .firstAssignment (kwArgs incidenceData)
        (plWith "EXTERNAL_ID_NOK")) =
      Except.ok (Outcome.failed "Exception Error invoking first assignment") :=
  ⟨by decide, by decide, by decide, by decide⟩

/-- C8 (confirmed): dispatch classification is deterministic.  In both
variants it is a function of the plugin behavior, the event kind, the
call arguments and the payload alone, so two calls with identical
arguments against the same pure plugin behavior yield identical Outcome
classifications. -/
theorem C8_deterministic (p : PluginBehavior) (k : EventKind) (c1 c2 : CallArgs)
    (pl1 pl2 : Payload) (hc : c1 = c2) (hpl : pl1 = pl2) :
    outcomeOf (dec_notify p k c1 pl1) = outcomeOf (dec_notify p k c2 pl2) ∧
    outcomeOf (meta_notify p k c1 pl1) = outcomeOf (meta_notify p k c2 pl2) := by
  subst hc
  subst hpl
  exact ⟨rfl, rfl⟩

/-- C8 witness: two identical FirstAssignment calls on the decorator
example plugin classify identically in both variants. -/
theorem C8_deterministic_witness :
    kwArgs incidenceData = kwArgs incidenceData ∧
    plWith EXTERNAL_TT_ID = plWith EXTERNAL_TT_ID ∧
    (outcomeOf (dec_notify decExample .firstAssignment (kwArgs incidenceData)
        (plWith EXTERNAL_TT_ID)) =
      outcomeOf (dec_notify decExample .firstAssignment (kwArgs incidenceData)
        (plWith EXTERNAL_TT_ID)) ∧
     outcomeOf (meta_notify decExample .firstAssignment (kwArgs incidenceData)
        (plWith EXTERNAL_TT_ID)) =
      outcomeOf (meta_notify decExample .firstAssignment (kwArgs incidenceData)
        (plWith EXTERNAL_TT_ID))) :=
  ⟨rfl, rfl, C8_deterministic decExample .firstAssignment _ _ _ _ rfl rfl⟩

/-- C9 (confirmed): the common processing of both variants reads only
the _id field of the incidence.  Holding the plugin behavior, event
kind and payload fixed, the entire dispatch result is invariant under
every change to the other fields of the incidence dict, whether the
incidence is passed by keyword or positionally; and no branch of the
model produces a modified incidence, so the entity is left unchanged. -/
theorem C9_reads_only_id (p : PluginBehavior) (k : EventKind) (pl : Payload)
    (idf : Option String) (f1 f2 : List (String × String)) (tail : List Incidence) :
    dec_notify p k (kwArgs ⟨idf, f1⟩) pl = dec_notify p k (kwArgs ⟨idf, f2⟩) pl ∧
    meta_notify p k (kwArgs ⟨idf, f1⟩) pl = meta_notify p k (kwArgs ⟨idf, f2⟩) pl ∧
    dec_notify p k ⟨none, ⟨idf, f1⟩ :: tail⟩ pl =
      dec_notify p k ⟨none, ⟨idf, f2⟩ :: tail⟩ pl ∧
    meta_notify p k ⟨none, ⟨idf, f1⟩ :: tail⟩ pl =
      meta_notify p k ⟨none, ⟨idf, f2⟩ :: tail⟩ pl := by
  cases idf with
  | none => exact ⟨rfl, rfl, rfl, rfl⟩
  | some v => exact ⟨rfl, rfl, rfl, rfl⟩

/-- Helper: the guard branch of the decorator wrapper never runs when a
positional tuple exists. -/
theorem dec_guard_unreachable (implAt : Option (Except PyExc Unit))
    (kwInc : Option Incidence) (args : List Incidence) :
    (dec_common_process implAt kwInc (some args)).guardHit = false := by
  unfold dec_common_process
  rcases hE : extractIncidenceId kwInc (some args) with e | (_ | s)
  · rfl
  · exact absurd hE (extract_ne_guard kwInc args)
  · exact dec_body_guardHit implAt

/-- Helper: the guard branch of the metaclass wrapper never runs when a
positional tuple exists. -/
theorem meta_guard_unreachable (implAt : Option (Except PyExc Unit))
    (kwInc : Option Incidence) (args : List Incidence) :
    (meta_common_process implAt kwInc (some args)).guardHit = false := by
  unfold meta_common_process
  rcases hE : extractIncidenceId kwInc (some args) with e | (_ | s)
  · rfl
  · exact absurd hE (extract_ne_guard kwInc args)
  · exact meta_body_guardHit implAt

/-- C10 (confirmed): in both variants the guard branch printing
"Incidence id not passed as argument" is dead for every real call: the
positional tuple always exists, so the condition of the elif holds and
the guard could run only for the impossible args = None.  A call with
no incidence argument at all instead lets IndexError escape the wrapper
uncaught, and a call whose incidence dict lacks the _id key lets
KeyError escape (keyword or positional), in every case before the
failure boundary: no handler runs, nothing is recorded, no failure
notification is sent. -/
theorem C10_dead_guard (implAt : Option (Except PyExc Unit)) (kwInc : Option Incidence)
    (args : List Incidence) (fields : List (String × String)) (tail : List Incidence) :
    (dec_common_process implAt kwInc (some args)).guardHit = false ∧
    (meta_common_process implAt kwInc (some args)).guardHit = false ∧
    (dec_common_process implAt none none).guardHit = true ∧
    (meta_common_process implAt none none).guardHit = true ∧
    dec_common_process implAt none (some []) =
      ⟨Except.error PyExc.indexError, 0, [], 0, false⟩ ∧
    meta_common_process implAt none (some []) =
      ⟨Except.error PyExc.indexError, 0, [], 0, false⟩ ∧
    dec_common_process implAt (some ⟨none, fields⟩) (some args) =
      ⟨Except.error (PyExc.keyError "_id"), 0, [], 0, false⟩ ∧
    meta_common_process implAt (some ⟨none, fields⟩) (some args) =
      ⟨Except.error (PyExc.keyError "_id"), 0, [], 0, false⟩ ∧
    dec_common_process implAt none (some (⟨none, fields⟩ :: tail)) =
      ⟨Except.error (PyExc.keyError "_id"), 0, [], 0, false⟩ ∧
    meta_common_process implAt none (some (⟨none, fields⟩ :: tail)) =
      ⟨Except.error (PyExc.keyError "_id"), 0, [], 0, false⟩ :=
  ⟨dec_guard_unreachable implAt kwInc args, meta_guard_unreachable implAt kwInc args,
   rfl, rfl, rfl, rfl, rfl, rfl, rfl, rfl⟩
